import Mathlib

/-!
Verification of the turn-taking and connection-management core of the
voice_service repository (WebSocket audio orchestration).

The development shallowly embeds, from the Python sources:

* `AudioBuffer` (src/voice_service/app/api/ws.py, lines 25-58),
* the broadcast loop `send_event` (ws.py, lines 298-320),
* the `Session` / `Turn` model (src/voice_service/app/api/models.py),
* `PipelineRunner.process_session_audio`
  (src/voice_service/app/pipeline/pipeline_runner.py, lines 29-191),
* the streaming-VAD control state (src/voice_service/app/pipeline/streaming_vad.py),
* the per-session `ConnectionManager` handlers (ws.py) as an atomic-step
  transition system over a manager state, with the asyncio event loop's
  cooperative scheduling modelled by one transition per handler invocation
  (each handler's lock-protected region runs without suspension).

Bytes are modelled as `List Nat`; the numeric byte values are never
interpreted by the modelled code, only lengths and concatenation matter.
Wall-clock timestamps (`datetime.utcnow`) are not modelled. Turn ids are
produced by `uuid.uuid4()` in the source; freshness is modelled by a
per-session counter.
-/

namespace VoiceService

/-- Raw audio bytes (Python `bytes`). -/
abbrev Bytes := List Nat

/-- Opaque handle for a client-supplied configuration dict.  The modelled
code never inspects the dict's contents (it only stores and forwards it),
so an abstract identifier is enough; `0` stands for the empty dict `{}`. -/
abbrev Config := Nat

/-! ## AudioBuffer (ws.py lines 25-58) -/

/-- `AudioBuffer`: per-session accumulator of audio chunks
(ws.py lines 25-38).  `session_id` is dropped: the trace model below is
per-session, and the field is only used for logging in the source. -/
structure AudioBuffer where
  chunks : List Bytes
  config : Config
  total_bytes : Nat
  deriving Repr, DecidableEq

/-- A fresh buffer as produced by `AudioBuffer.__init__`
(ws.py lines 28-32): no chunks, empty config dict, zero byte count. -/
def AudioBuffer.fresh : AudioBuffer :=
  { chunks := [], config := 0, total_bytes := 0 }

/-- `AudioBuffer.add_chunk` (ws.py lines 34-38): append the chunk and grow
the running byte count. -/
def AudioBuffer.add_chunk (b : AudioBuffer) (chunk : Bytes) : AudioBuffer :=
  { b with
    chunks := b.chunks ++ [chunk]
    total_bytes := b.total_bytes + chunk.length }

/-- `AudioBuffer.get_audio_data` (ws.py lines 40-42):
`b''.join(self.chunks)`. -/
def AudioBuffer.get_audio_data (b : AudioBuffer) : Bytes :=
  b.chunks.flatten

/-- `AudioBuffer.get_audio_data_up_to_samples` (ws.py lines 44-52).
`max_samples` is a Python `int`, hence `Int` here; PCM16 means 2 bytes per
sample; `data[:max_bytes]` on a non-negative bound is `List.take`. -/
def AudioBuffer.get_audio_data_up_to_samples (b : AudioBuffer) (max_samples : Int) : Bytes :=
  if max_samples ≤ 0 then []
  else
    let max_bytes : Int := max_samples * 2
    let data := b.get_audio_data
    if (data.length : Int) ≤ max_bytes then data
    else data.take max_bytes.toNat

/-- `AudioBuffer.clear` (ws.py lines 54-58). -/
def AudioBuffer.clear (b : AudioBuffer) : AudioBuffer :=
  { b with chunks := [], total_bytes := 0 }

/-- A buffer reached by starting from a fresh buffer with config `cfg`
(as `handle_audio_start` creates it) and appending `chunks` in order. -/
def buildBuffer (cfg : Config) (chunks : List Bytes) : AudioBuffer :=
  chunks.foldl AudioBuffer.add_chunk { AudioBuffer.fresh with config := cfg }

lemma buildBuffer_chunks (cfg : Config) (chunks : List Bytes) :
    (buildBuffer cfg chunks).chunks = chunks := by
  suffices h : ∀ b : AudioBuffer,
      (chunks.foldl AudioBuffer.add_chunk b).chunks = b.chunks ++ chunks by
    simpa [buildBuffer, AudioBuffer.fresh] using h _
  induction chunks with
  | nil => intro b; simp
  | cons c cs ih => intro b; simp [AudioBuffer.add_chunk, ih]

lemma buildBuffer_total_bytes (cfg : Config) (chunks : List Bytes) :
    (buildBuffer cfg chunks).total_bytes = (buildBuffer cfg chunks).get_audio_data.length := by
  suffices h : ∀ b : AudioBuffer, b.total_bytes = b.chunks.flatten.length →
      (chunks.foldl AudioBuffer.add_chunk b).total_bytes =
        (chunks.foldl AudioBuffer.add_chunk b).chunks.flatten.length by
    simpa [AudioBuffer.get_audio_data, buildBuffer] using
      h { AudioBuffer.fresh with config := cfg } (by simp [AudioBuffer.fresh])
  induction chunks with
  | nil => intro b hb; simpa using hb
  | cons c cs ih =>
      intro b hb
      refine ih _ ?_
      simp [AudioBuffer.add_chunk, hb]

/-! ## Broadcast loop `send_event` (ws.py lines 298-320) -/

/-- A WebSocket connection handle; only identity matters. -/
abbrev Conn := Nat

/-- The send loop of `send_event` (ws.py lines 308-314): iterate over the
registered connections, attempt `send_text` on each; a raising send puts
the connection on the `disconnected` list, a succeeding one delivers the
event.  `fails c = true` models `connection.send_text` raising on `c`.
Returns `(delivered, disconnected)` in iteration order. -/
def sendLoop : List Conn → (Conn → Bool) → List Conn × List Conn
  | [], _ => ([], [])
  | c :: rest, fails =>
    let (d, dis) := sendLoop rest fails
    if fails c then (d, c :: dis) else (c :: d, dis)

/-- Result of one `send_event` broadcast. -/
structure SendResult where
  /-- connections that received the event -/
  delivered : List Conn
  /-- the session's connection set after the cleanup loop -/
  remaining : List Conn
  deriving Repr, DecidableEq

/-- `ConnectionManager.send_event` for one session (ws.py lines 298-320):
send to every registered connection, collect the raising ones, then
discard exactly those from the registry (lines 316-320).  The function is
total: every per-connection failure is absorbed by the `except` branch,
which is the source's guarantee that no exception propagates out of the
broadcast. -/
def send_event (conns : List Conn) (fails : Conn → Bool) : SendResult :=
  let (delivered, disconnected) := sendLoop conns fails
  { delivered := delivered
    remaining := conns.filter (fun c => !(disconnected.contains c)) }

lemma sendLoop_delivered (conns : List Conn) (fails : Conn → Bool) :
    (sendLoop conns fails).1 = conns.filter (fun c => !(fails c)) := by
  induction conns with
  | nil => rfl
  | cons c rest ih =>
      by_cases h : fails c <;> simp [sendLoop, h, ih]

lemma sendLoop_disconnected (conns : List Conn) (fails : Conn → Bool) :
    (sendLoop conns fails).2 = conns.filter fails := by
  induction conns with
  | nil => rfl
  | cons c rest ih =>
      by_cases h : fails c <;> simp [sendLoop, h, ih]

/-! ## Session / Turn model (models.py lines 12-18, 106-235) -/

/-- `SessionStatus` (models.py lines 12-18). -/
inductive SessionStatus where
  | idle | listening | processing | speaking | error
  deriving Repr, DecidableEq

/-- `Turn` (models.py lines 106-113).  `turn_id` is modelled as a natural
number (the source uses `uuid.uuid4()`; only freshness and equality
matter).  The creation timestamp is not modelled. -/
structure Turn where
  turn_id : Nat
  transcript : Option String := none
  reply_text : Option String := none
  audio_path : Option String := none
  processing_time_ms : Option Nat := none
  deriving Repr, DecidableEq

/-- `Session` (models.py lines 151-167).  `session_id`, timestamps,
`language`, `mode` and the unused legacy `audio_buffer` field carry no
behaviour in the modelled operations and are dropped.  `next_turn_id`
models `uuid.uuid4()` freshness for newly created turns. -/
structure Session where
  status : SessionStatus := .idle
  turns : List Turn := []
  current_turn : Option Turn := none
  next_turn_id : Nat := 0
  deriving Repr, DecidableEq

/-- `Session.start_turn` (models.py lines 169-175): create a fresh turn,
make it current, move status to `listening`. -/
def Session.start_turn (s : Session) : Session :=
  { s with
    current_turn := some { turn_id := s.next_turn_id }
    next_turn_id := s.next_turn_id + 1
    status := .listening }

/-- `Session.complete_turn` (models.py lines 177-183): append the current
turn (if any) to history, clear it, move status to `idle`. -/
def Session.complete_turn (s : Session) : Session :=
  match s.current_turn with
  | some t => { s with turns := s.turns ++ [t], current_turn := none, status := .idle }
  | none => { s with status := .idle }

/-- `SessionManager.update_session_status` (session_manager.py lines
72-79), restricted to a session that exists: set the status field (the
`updated_at` timestamp is not modelled). -/
def update_session_status (s : Session) (status : SessionStatus) : Session :=
  { s with status := status }

/-! ## Pipeline runner (pipeline_runner.py lines 29-191) -/

/-- Events broadcast over the session's WebSocket connections
(ws.py lines 322-382).  Each carries the optional turn id it was emitted
with; error events carry code and message. -/
inductive Ev where
  | state (st : SessionStatus) (turn_id : Option Nat)
  | transcript_final (text : String) (turn_id : Nat)
  | reply_text (text : String) (turn_id : Nat)
  | audio_ready (turn_id : Nat)
  | err (code : String) (message : String) (turn_id : Option Nat)
  deriving Repr, DecidableEq

/-- The dict returned by `pipeline.process` (consumed at
pipeline_runner.py lines 85-103). -/
structure PipelineResult where
  error : Option String := none
  transcript : Option String := none
  reply_text : Option String := none
  route : Option String := none
  processing_time_ms : Nat := 0
  deriving Repr, DecidableEq

/-- Python truthiness of an optional string (`if result.get("error"):`,
`if transcript:`, ...): present and non-empty. -/
def strTruthy (o : Option String) : Bool :=
  o.getD "" ≠ ""

/-- Outcome of the external pipeline call inside
`process_session_audio`:
* `raised msg` — `pipeline.process` raised, landing in the `except`
  branch (pipeline_runner.py lines 180-191);
* `returned r ttsPath ttsDurationMs` — a result dict was returned;
  `ttsPath` is what `_generate_audio_placeholder` (external TTS, lines
  193-236) returned and `ttsDurationMs` the measured artifact duration. -/
inductive PipelineOutcome where
  | raised (msg : String)
  | returned (r : PipelineResult) (ttsPath : Option String) (ttsDurationMs : Nat)
  deriving Repr, DecidableEq

/-- `PipelineRunner.process_session_audio` (pipeline_runner.py lines
29-191) for a session that was found in the registry (the
session-lookup guard at lines 50-53 lives in the caller's scope).
Returns the updated session, the list of events broadcast during the
call in order, and the boolean result.

Control flow embedded:
* no current turn (lines 55-57): return `False`, nothing broadcast;
* broadcast `processing`, set status (lines 64-70);
* `result.get("error")` truthy (lines 84-97): broadcast `PIPELINE_ERROR`,
  status := `error`, return `False`;
* success (lines 99-178): update the turn's fields, broadcast transcript
  and reply when truthy, on a TTS artifact broadcast `audio_ready` and
  `speaking`, then `complete_turn`, broadcast `idle`, return `True`;
* any exception (lines 180-191): broadcast `PROCESSING_ERROR`,
  status := `error`, return `False`. -/
def process_session_audio (sess : Session) (out : PipelineOutcome) :
    Session × List Ev × Bool :=
  match sess.current_turn with
  | none => (sess, [], false)
  | some turn =>
    let tid := turn.turn_id
    let evs0 : List Ev := [.state .processing (some tid)]
    let sess := { sess with status := .processing }
    match out with
    | .raised msg =>
        ({ sess with status := .error },
         evs0 ++ [.err "PROCESSING_ERROR" msg (some tid)], false)
    | .returned r ttsPath _ttsDurationMs =>
        if strTruthy r.error then
          ({ sess with status := .error },
           evs0 ++ [.err "PIPELINE_ERROR" (r.error.getD "") (some tid)], false)
        else
          let turn := { turn with
            transcript := r.transcript
            reply_text := r.reply_text
            processing_time_ms := some r.processing_time_ms }
          let evs1 := evs0
            ++ (if strTruthy r.transcript
                then [Ev.transcript_final (r.transcript.getD "") tid] else [])
            ++ (if strTruthy r.reply_text
                then [Ev.reply_text (r.reply_text.getD "") tid] else [])
          match ttsPath with
          | some path =>
              let turn := { turn with audio_path := some path }
              let sess := { sess with current_turn := some turn, status := .speaking }
              let sess := sess.complete_turn
              (update_session_status sess .idle,
               evs1 ++ [.audio_ready tid, .state .speaking (some tid),
                        .state .idle none], true)
          | none =>
              let sess := { sess with current_turn := some turn }
              let sess := sess.complete_turn
              (update_session_status sess .idle,
               evs1 ++ [.state .idle none], true)

/-! ## Streaming VAD control state (streaming_vad.py) -/

/-- `StreamingVADState` (streaming_vad.py lines 17-29), minus the
external `vad_iterator` handle (the neural detector is a black box whose
per-chunk verdict is an oracle input to `vad_process_chunk`). -/
structure StreamingVADState where
  total_samples : Nat := 0
  pending_endpoint : Bool := false
  last_end_sample : Option Nat := none
  deriving Repr, DecidableEq

/-- Verdict of the external `VADIterator` on one chunk: `start`-of-speech,
`end`-of-speech, or nothing (which also covers the logged-and-ignored
detector exception at streaming_vad.py lines 65-69). -/
inductive VadSignal where
  | start | endOfSpeech | nothing
  deriving Repr, DecidableEq

/-- Result dict of `process_chunk` (streaming_vad.py lines 53-84). -/
structure VadResult where
  end_detected : Bool
  speech_resumed : Bool
  end_sample : Option Nat
  deriving Repr, DecidableEq

/-- `process_chunk` (streaming_vad.py lines 53-84).  The chunk's bytes are
reinterpreted as 16-bit samples (`np.frombuffer(..., int16)`), so the
sample counter grows by `chunk.length / 2` (floor).  On `start` while an
endpoint is pending: clear it and report speech resumed.  On `end`: set
`pending_endpoint` and record the current sample count. -/
def vad_process_chunk (st : StreamingVADState) (chunk : Bytes) (sig : VadSignal) :
    StreamingVADState × VadResult :=
  let total := st.total_samples + chunk.length / 2
  let st := { st with total_samples := total }
  match sig with
  | .start =>
      if st.pending_endpoint then
        ({ st with pending_endpoint := false, last_end_sample := none },
         { end_detected := false, speech_resumed := true, end_sample := none })
      else
        (st, { end_detected := false, speech_resumed := false, end_sample := none })
  | .endOfSpeech =>
      ({ st with pending_endpoint := true, last_end_sample := some total },
       { end_detected := true, speech_resumed := false, end_sample := some total })
  | .nothing =>
      (st, { end_detected := false, speech_resumed := false, end_sample := none })

/-! ## ConnectionManager transition system (ws.py lines 61-320)

One session's slice of the `ConnectionManager` dictionaries, plus the
session registry entry for that session, an event log, and a log of
pipeline dispatches.  Each handler invocation is one atomic transition:
in the source every handler's mutation runs inside `async with self._lock`
(or without any intervening `await`), and the asyncio loop is
single-threaded, so a handler's effect is not interleaved with another's.

Configuration constants (config.py): `STREAMING_VAD_ENABLED = True`,
`AUDIO_SAMPLE_RATE = 16000`, `ENDPOINT_POST_ROLL_MS = 200`,
so the post-roll is 3200 samples. -/

def AUDIO_SAMPLE_RATE : Nat := 16000
def ENDPOINT_POST_ROLL_MS : Nat := 200

/-- `int(settings.AUDIO_SAMPLE_RATE * (settings.ENDPOINT_POST_ROLL_MS /
1000.0))` (ws.py lines 276-278) = 3200. -/
def POST_ROLL_SAMPLES : Nat := AUDIO_SAMPLE_RATE * ENDPOINT_POST_ROLL_MS / 1000

/-- Status of the entry in `endpoint_tasks` for the session: the stored
`asyncio.Task` is still pending, or has already run to completion (the
dict entry survives the task's own completion; cancellation always
deletes the entry). -/
inductive TaskStatus where
  | pending | done
  deriving Repr, DecidableEq

/-- One recorded pipeline dispatch: the snapshot handed to
`_process_audio` by `asyncio.create_task` (ws.py line 245). -/
structure Dispatch where
  audio : Bytes
  config : Option Config
  deriving Repr, DecidableEq

/-- One session's slice of the `ConnectionManager` state (ws.py lines
64-75), together with that session's `SessionManager` entry, the ordered
log of events produced for broadcast, and the ordered log of pipeline
dispatches.  A `none` field models absence of the session's key in the
corresponding dict; `inflight` counts dispatched `_process_audio` tasks
whose `finally` cleanup has not yet run. -/
structure MgrState where
  connections : List Conn := []
  buffer : Option AudioBuffer := none
  vad : Option StreamingVADState := none
  processing_started : Option Bool := none
  endpoint_task : Option TaskStatus := none
  session : Option Session := none
  events : List Ev := []
  dispatches : List Dispatch := []
  inflight : Nat := 0
  deriving Repr, DecidableEq

/-- `ConnectionManager._cancel_endpoint_task` (ws.py lines 254-260):
cancel the stored task if present and not done, then delete the entry.
Either way the entry is gone afterwards. -/
def cancel_endpoint_task (s : MgrState) : MgrState :=
  { s with endpoint_task := none }

/-- `ConnectionManager._schedule_endpoint_trigger` (ws.py lines 262-296):
if a pending task already exists, do nothing; otherwise store a fresh
pending confirmation task. -/
def schedule_endpoint_trigger (s : MgrState) : MgrState :=
  if s.endpoint_task = some .pending then s
  else { s with endpoint_task := some .pending }

/-- Resolution of the audio snapshot in `_trigger_processing_once`
(ws.py lines 222-234): the override wins; otherwise the buffer's full
concatenation; `none` when neither exists. -/
def resolve_audio (audio_override : Option Bytes) (buf : Option AudioBuffer) :
    Option Bytes :=
  match audio_override, buf with
  | some a, _ => some a
  | none, some b => some b.get_audio_data
  | none, none => none

/-- Resolution of the client config in `_trigger_processing_once`
(ws.py lines 222-234). -/
def resolve_config (config_override : Option Config) (buf : Option AudioBuffer) :
    Option Config :=
  match config_override, buf with
  | some c, _ => some c
  | none, some b => some b.config
  | none, none => none

/-- `ConnectionManager._trigger_processing_once` (ws.py lines 209-252).
Under the lock: if the guard is already truthy, return; otherwise set it,
resolve the audio snapshot and config (overrides first, then the buffer),
tear down the VAD state and any stored confirmation task, broadcast
`processing`, and either dispatch `_process_audio` with the snapshot
(when the snapshot is truthy, i.e. non-empty bytes) or broadcast the
`NO_AUDIO` error followed by `idle`. -/
def trigger_processing_once (s : MgrState)
    (audio_override : Option Bytes) (config_override : Option Config) : MgrState :=
  if s.processing_started = some true then s
  else
    let audio_data : Option Bytes := resolve_audio audio_override s.buffer
    let audio_config : Option Config := resolve_config config_override s.buffer
    let s := { s with
      processing_started := some true
      vad := none
      endpoint_task := none
      events := s.events ++ [Ev.state .processing none] }
    match audio_data with
    | some (x :: xs) =>
        { s with
          dispatches := s.dispatches ++ [({ audio := x :: xs, config := audio_config } : Dispatch)]
          inflight := s.inflight + 1 }
    | _ =>
        { s with events := s.events
            ++ [Ev.err "NO_AUDIO" "No audio data received" none, Ev.state .idle none] }

/-- `ConnectionManager.handle_audio_start` (ws.py lines 114-147): if the
session is missing, broadcast `SESSION_NOT_FOUND` and stop; otherwise
start a new turn only when none is in progress, then install a fresh
audio buffer carrying the client config, reset the trigger guard to
`False`, initialise a fresh streaming-VAD state
(`STREAMING_VAD_ENABLED` is true), and broadcast `listening`.
The `endpoint_tasks` entry is not touched. -/
def handle_audio_start (s : MgrState) (cfg : Config) : MgrState :=
  match s.session with
  | none =>
      { s with events := s.events
          ++ [Ev.err "SESSION_NOT_FOUND" "Session not found" none] }
  | some sess =>
      let sess := if sess.current_turn.isNone then sess.start_turn else sess
      { s with
        session := some sess
        buffer := some { chunks := [], config := cfg, total_bytes := 0 }
        processing_started := some false
        vad := some {}
        events := s.events ++ [Ev.state .listening none] }

/-- `ConnectionManager.handle_audio_chunk` (ws.py lines 149-169): drop the
chunk when the guard is truthy; otherwise append it to the buffer
(creating the buffer if absent), then feed the chunk to the streaming VAD
when a VAD state exists — cancelling the pending confirmation task on
speech resumed, scheduling one on a detected endpoint.  `sig` is the
external detector's verdict for this chunk. -/
def handle_audio_chunk (s : MgrState) (chunk : Bytes) (sig : VadSignal) : MgrState :=
  if s.processing_started = some true then s
  else
    let buf := (s.buffer.getD AudioBuffer.fresh).add_chunk chunk
    let s := { s with buffer := some buf }
    match s.vad with
    | none => s
    | some v =>
        let (v', res) := vad_process_chunk v chunk sig
        let s := { s with vad := some v' }
        let s := if res.speech_resumed then cancel_endpoint_task s else s
        if res.end_detected then schedule_endpoint_trigger s else s

/-- `ConnectionManager.handle_audio_end` (ws.py lines 171-174): commit via
the guarded trigger with no overrides. -/
def handle_audio_end (s : MgrState) : MgrState :=
  trigger_processing_once s none none

/-- Body of `_endpoint_wait_and_trigger` (ws.py lines 266-294) once the
confirmation sleep has elapsed; runs only while the stored task is still
pending (cancellation deletes the entry and aborts the body).  Re-checks
the guard and the VAD's pending endpoint; if both pass, materialises the
buffer's prefix up to `last_end_sample + POST_ROLL_SAMPLES` and commits
through the guarded trigger.  On an early return the task completes and
its entry remains, now done. -/
def confirm_endpoint_fire (s : MgrState) : MgrState :=
  if s.endpoint_task ≠ some .pending then s
  else if s.processing_started = some true then
    { s with endpoint_task := some .done }
  else
    match s.vad with
    | none => { s with endpoint_task := some .done }
    | some v =>
        if !v.pending_endpoint then { s with endpoint_task := some .done }
        else
          let max_samples : Nat := v.last_end_sample.getD 0 + POST_ROLL_SAMPLES
          let audio_override : Option Bytes :=
            s.buffer.map (fun b => b.get_audio_data_up_to_samples (max_samples : Int))
          let config_override : Option Config := s.buffer.map (·.config)
          trigger_processing_once s audio_override config_override

/-- The `finally` cleanup of `_process_audio` (ws.py lines 176-207) for
one dispatched task.  The call `process_audio_stream(session_id,
audio_data, sample_rate=...)` at ws.py line 190 raises `TypeError`
(`process_audio_stream` at pipeline_runner.py line 253 accepts no
`sample_rate` argument), so the `except` branch broadcasts
`PROCESSING_ERROR` and an `idle` state event, and the `finally` branch
deletes the session's buffer and trigger-guard entries.  The session
registry entry is untouched. -/
def process_audio_done (s : MgrState) : MgrState :=
  if s.inflight = 0 then s
  else
    { s with
      inflight := s.inflight - 1
      events := s.events
        ++ [Ev.err "PROCESSING_ERROR" "Failed to process audio" none, Ev.state .idle none]
      buffer := none
      processing_started := none }

/-- `ConnectionManager.connect` for one session (ws.py lines 77-89):
register the connection in the session's set. -/
def connect (s : MgrState) (c : Conn) : MgrState :=
  if s.connections.contains c then s
  else { s with connections := s.connections ++ [c] }

/-- `ConnectionManager.disconnect` (ws.py lines 91-112): discard the
connection (dropping the set when it empties), then — unconditionally —
delete the session's audio buffer, streaming-VAD state and trigger-guard
entry, and cancel and delete any stored confirmation task.  The session
registry is untouched. -/
def disconnect (s : MgrState) (c : Conn) : MgrState :=
  { s with
    connections := s.connections.erase c
    buffer := none
    vad := none
    processing_started := none
    endpoint_task := none }

/-- The externally driven atomic transitions of one session's manager
state: client messages (`audio.start`, a binary chunk with the detector's
verdict, `audio.end`), the confirmation timer elapsing, a dispatched
`_process_audio` task finishing, and connection (de)registration. -/
inductive Act where
  | audioStart (cfg : Config)
  | audioChunk (chunk : Bytes) (sig : VadSignal)
  | audioEnd
  | confirmFire
  | processDone
  | connectWs (c : Conn)
  | disconnectWs (c : Conn)
  deriving Repr, DecidableEq

/-- Interpret one action. -/
def step (s : MgrState) : Act → MgrState
  | .audioStart cfg => handle_audio_start s cfg
  | .audioChunk chunk sig => handle_audio_chunk s chunk sig
  | .audioEnd => handle_audio_end s
  | .confirmFire => confirm_endpoint_fire s
  | .processDone => process_audio_done s
  | .connectWs c => connect s c
  | .disconnectWs c => disconnect s c

/-- Run a sequence of actions. -/
def run (s : MgrState) (acts : List Act) : MgrState :=
  acts.foldl step s

/-- The state of a freshly connected session: `resume_or_create_session`
has installed a fresh `Session` (ws.py lines 402-409), and none of the
per-session dicts have entries yet. -/
def init : MgrState :=
  { session := some {} }

/-- Actions that reset or delete the trigger-guard entry: `audio.start`
re-arms the guard to `False`, the `_process_audio` cleanup and
`disconnect` delete the entry. -/
def Act.resetsGuard : Act → Bool
  | .audioStart _ => true
  | .processDone => true
  | .disconnectWs _ => true
  | _ => false

/-- The session-state invariant of the spec, widened to include `error`
(see the C5 analysis): the current turn is non-null only in a
non-idle status. -/
def sessionInv (s : Session) : Prop :=
  s.current_turn.isSome = true →
    s.status = .listening ∨ s.status = .processing ∨
      s.status = .speaking ∨ s.status = .error

/-! ## Theorems -/

/-- C3.  Prefix correctness: for every buffer built by appending any
sequence of chunks, and every integer `N`,
`get_audio_data_up_to_samples N` returns exactly the first
`min (N * 2) totalBytes` bytes of the full concatenation when `N > 0`,
and empty bytes when `N ≤ 0`. -/
theorem prefix_correctness (cfg : Config) (chunks : List Bytes) (N : Int) :
    (buildBuffer cfg chunks).get_audio_data_up_to_samples N =
      if 0 < N then
        (buildBuffer cfg chunks).get_audio_data.take
          (min (N.toNat * 2) (buildBuffer cfg chunks).total_bytes)
      else [] := by
  have htb := buildBuffer_total_bytes cfg chunks
  by_cases h : N ≤ 0
  · simp only [AudioBuffer.get_audio_data_up_to_samples, if_pos h]
    rw [if_neg (show ¬ (0 : Int) < N by omega)]
  · simp only [AudioBuffer.get_audio_data_up_to_samples, if_neg h]
    rw [if_pos (show (0 : Int) < N by omega)]
    by_cases h2 : ((buildBuffer cfg chunks).get_audio_data.length : Int) ≤ N * 2
    · rw [if_pos h2]
      have hmin : min (N.toNat * 2) (buildBuffer cfg chunks).total_bytes
          = (buildBuffer cfg chunks).total_bytes := by
        rw [htb]; omega
      rw [hmin, htb, List.take_length]
    · rw [if_neg h2]
      have hmin : min (N.toNat * 2) (buildBuffer cfg chunks).total_bytes
          = N.toNat * 2 := by
        rw [htb]; omega
      rw [hmin]
      congr 1
      omega

/-- C7.  Broadcast isolation: a broadcast delivers the event to exactly
the connections whose send does not raise, removes exactly the raising
connections from the registry, and (being a total function) never lets a
send failure escape; in particular with connections `[1, 2, 3]` where
the 2nd raises, the 1st and 3rd receive the event and only the 2nd is
removed. -/
theorem broadcast_isolation (conns : List Conn) (fails : Conn → Bool) :
    (send_event conns fails).delivered = conns.filter (fun c => !(fails c)) ∧
    (send_event conns fails).remaining = conns.filter (fun c => !(fails c)) ∧
    (send_event [1, 2, 3] (fun c => c == 2)).delivered = [1, 3] ∧
    (send_event [1, 2, 3] (fun c => c == 2)).remaining = [1, 3] := by
  refine ⟨?_, ?_, by decide, by decide⟩
  · simp only [send_event]
    rw [sendLoop_delivered]
  · simp only [send_event]
    rw [sendLoop_disconnected]
    refine List.filter_congr ?_
    intro c hc
    simp [List.mem_filter, hc]

/-- C8.  Late-chunk rejection: once the trigger guard for the session has
fired (`processing_started` is `True`), `handle_audio_chunk` drops the
chunk and leaves the entire manager state — in particular the audio
buffer — unchanged. -/
theorem late_chunk_rejection (s : MgrState) (chunk : Bytes) (sig : VadSignal)
    (h : s.processing_started = some true) :
    step s (.audioChunk chunk sig) = s := by
  simp [step, handle_audio_chunk, h]

/-- Witness for C8 at a concrete state. -/
theorem late_chunk_rejection_witness :
    ({ init with processing_started := some true } : MgrState).processing_started
        = some true ∧
    step { init with processing_started := some true } (.audioChunk [1, 2] .nothing)
      = { init with processing_started := some true } :=
  ⟨rfl, late_chunk_rejection _ [1, 2] .nothing rfl⟩

/-- C9.  Idempotent turn start: two consecutive `handle_audio_start`
calls on a session without an intervening completed turn observe the same
turn id — the second call reuses the existing `current_turn`. -/
theorem idempotent_turn_start (s : MgrState) (sess : Session) (cfg cfg' : Config)
    (h : s.session = some sess) :
    ((step s (.audioStart cfg)).session.bind Session.current_turn).map Turn.turn_id
      = ((step (step s (.audioStart cfg)) (.audioStart cfg')).session.bind
          Session.current_turn).map Turn.turn_id ∧
    ((step s (.audioStart cfg)).session.bind Session.current_turn).isSome = true := by
  cases ht : sess.current_turn with
  | none =>
      simp [step, handle_audio_start, h, ht, Session.start_turn]
  | some t =>
      simp [step, handle_audio_start, h, ht]

/-- Witness for C9 at the initial state. -/
theorem idempotent_turn_start_witness :
    init.session = some ({} : Session) ∧
    (((step init (.audioStart 1)).session.bind Session.current_turn).map Turn.turn_id
      = ((step (step init (.audioStart 1)) (.audioStart 2)).session.bind
          Session.current_turn).map Turn.turn_id ∧
    ((step init (.audioStart 1)).session.bind Session.current_turn).isSome = true) :=
  ⟨rfl, idempotent_turn_start init {} 1 2 rfl⟩

/-- C10.  A second `handle_audio_start` on a session with an active turn
reuses that turn but installs a fresh empty audio buffer carrying the new
client config and resets the trigger guard to `False`. -/
theorem restart_resets_buffer (s : MgrState) (sess : Session) (t : Turn) (cfg : Config)
    (h : s.session = some sess) (ht : sess.current_turn = some t) :
    (step s (.audioStart cfg)).buffer
        = some { chunks := [], config := cfg, total_bytes := 0 } ∧
    (step s (.audioStart cfg)).processing_started = some false ∧
    (step s (.audioStart cfg)).session = some sess := by
  simp [step, handle_audio_start, h, ht]

/-- Witness for C10: a session with an active turn and a non-empty
buffer; restarting discards the buffered chunk. -/
theorem restart_resets_buffer_witness :
    ({ init with
        session := some (Session.start_turn {})
        buffer := some (AudioBuffer.fresh.add_chunk [9, 9]) } : MgrState).session
        = some (Session.start_turn {}) ∧
    (Session.start_turn {}).current_turn = some { turn_id := 0 } ∧
    ((step { init with
        session := some (Session.start_turn {})
        buffer := some (AudioBuffer.fresh.add_chunk [9, 9]) } (.audioStart 7)).buffer
        = some { chunks := [], config := 7, total_bytes := 0 } ∧
     (step { init with
        session := some (Session.start_turn {})
        buffer := some (AudioBuffer.fresh.add_chunk [9, 9]) } (.audioStart 7)).processing_started
        = some false ∧
     (step { init with
        session := some (Session.start_turn {})
        buffer := some (AudioBuffer.fresh.add_chunk [9, 9]) } (.audioStart 7)).session
        = some (Session.start_turn {})) :=
  ⟨rfl, rfl, restart_resets_buffer _ _ { turn_id := 0 } 7 rfl rfl⟩

/-- C4 counterexample.  A pipeline error leaves the session in `error`:
the broadcast sequence for the failing turn contains no `idle` state
event, the final status is `error` (not `idle`), and even a subsequent
`audio.start` on the session leaves the status at `error` (the active
turn is reused, so `start_turn` — the only transition back to
`listening` — is skipped).  This refutes "moves to error and then always
returns to idle afterward". -/
theorem pipeline_failure_no_idle_return :
    ( process_session_audio (Session.start_turn {})
        (.returned { error := some "boom" } none 0)).1.status = SessionStatus.error ∧
    ( process_session_audio (Session.start_turn {})
        (.returned { error := some "boom" } none 0)).1.status ≠ SessionStatus.idle ∧
    ( process_session_audio (Session.start_turn {})
        (.returned { error := some "boom" } none 0)).2.1
      = [Ev.state .processing (some 0), Ev.err "PIPELINE_ERROR" "boom" (some 0)] ∧
    ((step { init with
        session := some ( process_session_audio (Session.start_turn {})
          (.returned { error := some "boom" } none 0)).1 }
        (.audioStart 0)).session.map Session.status = some SessionStatus.error) := by
  decide

/-- C4 as amended.  Whenever the pipeline returns a (truthy) error for a
turn, a user-visible `PIPELINE_ERROR` event carrying that turn's id is
broadcast, the turn is not appended to the session's history (and stays
current), the call returns `False`, and the session's status moves to
`error` and stays there: no `idle` state event is broadcast for the
failing turn. -/
theorem pipeline_failure_recovery (sess : Session) (t : Turn) (r : PipelineResult)
    (msg : String) (ttsPath : Option String) (dur : Nat)
    (ht : sess.current_turn = some t) (he : r.error = some msg) (hm : msg ≠ "") :
    Ev.err "PIPELINE_ERROR" msg (some t.turn_id)
        ∈ ( process_session_audio sess (.returned r ttsPath dur)).2.1 ∧
    ( process_session_audio sess (.returned r ttsPath dur)).1.turns = sess.turns ∧
    ( process_session_audio sess (.returned r ttsPath dur)).1.current_turn = some t ∧
    ( process_session_audio sess (.returned r ttsPath dur)).1.status = .error ∧
    ( process_session_audio sess (.returned r ttsPath dur)).2.2 = false ∧
    ( process_session_audio sess (.returned r ttsPath dur)).2.1
      = [Ev.state .processing (some t.turn_id),
         Ev.err "PIPELINE_ERROR" msg (some t.turn_id)] := by
  have htr : strTruthy (some msg) = true := by
    simp [strTruthy, hm]
  simp [ process_session_audio, ht, he, htr]

/-- Witness for C4 (amended) at a concrete failing turn. -/
theorem pipeline_failure_recovery_witness :
    ((Session.start_turn {}).current_turn = some { turn_id := 0 } ∧
     ({ error := some "oops" } : PipelineResult).error = some "oops" ∧
     "oops" ≠ "") ∧
    (Ev.err "PIPELINE_ERROR" "oops" (some 0)
        ∈ ( process_session_audio (Session.start_turn {})
            (.returned { error := some "oops" } none 3)).2.1 ∧
     ( process_session_audio (Session.start_turn {})
        (.returned { error := some "oops" } none 3)).1.turns = (Session.start_turn {}).turns ∧
     ( process_session_audio (Session.start_turn {})
        (.returned { error := some "oops" } none 3)).1.current_turn = some { turn_id := 0 } ∧
     ( process_session_audio (Session.start_turn {})
        (.returned { error := some "oops" } none 3)).1.status = .error ∧
     ( process_session_audio (Session.start_turn {})
        (.returned { error := some "oops" } none 3)).2.2 = false ∧
     ( process_session_audio (Session.start_turn {})
        (.returned { error := some "oops" } none 3)).2.1
       = [Ev.state .processing (some 0), Ev.err "PIPELINE_ERROR" "oops" (some 0)]) :=
  ⟨⟨rfl, rfl, by decide⟩,
   pipeline_failure_recovery (Session.start_turn {}) { turn_id := 0 }
     { error := some "oops" } "oops" none 3 rfl rfl (by decide)⟩

/-- C5 counterexample.  After the pipeline error path, `current_turn` is
still set while the status is `error`, which is outside
{listening, processing, speaking}: the claimed invariant is violated by
the pipeline error path itself. -/
theorem session_invariant_violated :
    ( process_session_audio (Session.start_turn {})
        (.returned { error := some "boom" } none 0)).1.current_turn.isSome = true ∧
    ¬(( process_session_audio (Session.start_turn {})
        (.returned { error := some "boom" } none 0)).1.status = .listening ∨
      ( process_session_audio (Session.start_turn {})
        (.returned { error := some "boom" } none 0)).1.status = .processing ∨
      ( process_session_audio (Session.start_turn {})
        (.returned { error := some "boom" } none 0)).1.status = .speaking) := by
  decide

/-- C5 as amended.  With `error` added to the admissible statuses,
the invariant "current_turn is non-null only while status ∈ {listening,
processing, speaking, error}" is established or preserved by
`start_turn`, `complete_turn`, every outcome of `process_session_audio`,
and `update_session_status` with any status other than `idle`
(an `idle` update while a turn is active is the one remaining way to
break it). -/
theorem session_invariant_preserved (s : Session) :
    sessionInv s.start_turn ∧
    sessionInv s.complete_turn ∧
    (∀ out : PipelineOutcome, sessionInv ( process_session_audio s out).1) ∧
    (∀ st : SessionStatus, st ≠ .idle → sessionInv (update_session_status s st)) := by
  refine ⟨?_, ?_, ?_, ?_⟩
  · intro _
    left; rfl
  · intro h
    cases hc : s.current_turn <;> simp [Session.complete_turn, hc] at h ⊢
  · intro out
    cases hc : s.current_turn with
    | none =>
        intro h
        simp [ process_session_audio, hc] at h
    | some t =>
        cases out with
        | raised msg =>
            intro _
            simp [ process_session_audio, hc]
        | returned r ttsPath dur =>
            by_cases he : strTruthy r.error
            · intro _
              simp [ process_session_audio, hc, he]
            · intro h
              cases hp : ttsPath <;>
                simp [ process_session_audio, hc, he, hp, Session.complete_turn,
                  update_session_status] at h
  · intro st hst
    intro _
    cases st with
    | idle => exact absurd rfl hst
    | listening => left; rfl
    | processing => right; left; rfl
    | speaking => right; right; left; rfl
    | error => right; right; right; rfl

/-- Witness for C5 (amended) at concrete inputs. -/
theorem session_invariant_preserved_witness :
    sessionInv (Session.start_turn {}) ∧
    sessionInv ( process_session_audio (Session.start_turn {}) (.raised "x")).1 ∧
    (SessionStatus.listening ≠ SessionStatus.idle ∧
     sessionInv (update_session_status (Session.start_turn {}) .listening)) :=
  ⟨(session_invariant_preserved {}).1,
   (session_invariant_preserved (Session.start_turn {})).2.2.1 (.raised "x"),
   by decide,
   (session_invariant_preserved (Session.start_turn {})).2.2.2 .listening (by decide)⟩

/-- C6 counterexample.  Disconnecting one of two registered connections
releases the session's audio buffer, VAD state, trigger-guard entry and
pending confirmation task even though another connection remains: the
per-turn resources are not left unchanged. -/
theorem disconnect_not_last_releases :
    (step { init with
        connections := [1, 2]
        buffer := some (AudioBuffer.fresh.add_chunk [9, 9])
        vad := some {}
        processing_started := some false
        endpoint_task := some .pending } (.disconnectWs 1)).connections = [2] ∧
    (step { init with
        connections := [1, 2]
        buffer := some (AudioBuffer.fresh.add_chunk [9, 9])
        vad := some {}
        processing_started := some false
        endpoint_task := some .pending } (.disconnectWs 1)).connections ≠ [] ∧
    (step { init with
        connections := [1, 2]
        buffer := some (AudioBuffer.fresh.add_chunk [9, 9])
        vad := some {}
        processing_started := some false
        endpoint_task := some .pending } (.disconnectWs 1)).buffer = none ∧
    (step { init with
        connections := [1, 2]
        buffer := some (AudioBuffer.fresh.add_chunk [9, 9])
        vad := some {}
        processing_started := some false
        endpoint_task := some .pending } (.disconnectWs 1)).vad = none ∧
    (step { init with
        connections := [1, 2]
        buffer := some (AudioBuffer.fresh.add_chunk [9, 9])
        vad := some {}
        processing_started := some false
        endpoint_task := some .pending } (.disconnectWs 1)).processing_started = none ∧
    (step { init with
        connections := [1, 2]
        buffer := some (AudioBuffer.fresh.add_chunk [9, 9])
        vad := some {}
        processing_started := some false
        endpoint_task := some .pending } (.disconnectWs 1)).endpoint_task = none := by
  decide

/-- C6 as amended.  Deregistering any connection of a session — last or
not — removes that connection from the set and releases the session's
audio buffer, streaming-VAD state, trigger-guard entry and pending
confirmation task; the Session/Turn history, the event log and the
dispatch log are untouched by disconnect. -/
theorem disconnect_frame (s : MgrState) (c : Conn) :
    (step s (.disconnectWs c)).connections = s.connections.erase c ∧
    (step s (.disconnectWs c)).buffer = none ∧
    (step s (.disconnectWs c)).vad = none ∧
    (step s (.disconnectWs c)).processing_started = none ∧
    (step s (.disconnectWs c)).endpoint_task = none ∧
    (step s (.disconnectWs c)).session = s.session ∧
    (step s (.disconnectWs c)).events = s.events ∧
    (step s (.disconnectWs c)).dispatches = s.dispatches := by
  refine ⟨rfl, rfl, rfl, rfl, rfl, rfl, rfl, rfl⟩

/-! ### Guard lemmas for the at-most-once analysis (C1) -/

/-- `_trigger_processing_once` either leaves the dispatch log unchanged
or appends exactly one dispatch; in the latter case the trigger guard is
`True` afterwards.  In every case where the guard was not already `True`
it is `True` afterwards. -/
lemma trigger_dispatch_spec (s : MgrState)
    (ao : Option Bytes) (co : Option Config) :
    (trigger_processing_once s ao co).dispatches = s.dispatches ∨
      ((trigger_processing_once s ao co).dispatches.length = s.dispatches.length + 1 ∧
       (trigger_processing_once s ao co).processing_started = some true) := by
  by_cases hg : s.processing_started = some true
  · left
    simp [trigger_processing_once, hg]
  · cases ha : resolve_audio ao s.buffer with
    | none => left; simp [trigger_processing_once, hg, ha]
    | some l =>
        cases l with
        | nil => left; simp [trigger_processing_once, hg, ha]
        | cons x xs =>
            right
            simp [trigger_processing_once, hg, ha]

/-- With the guard already fired and intact, no non-resetting action
changes the dispatch log, and the guard stays fired. -/
lemma step_guard_true (s : MgrState) (a : Act)
    (hg : s.processing_started = some true) (ha : a.resetsGuard = false) :
    (step s a).dispatches = s.dispatches ∧
      (step s a).processing_started = some true := by
  cases a with
  | audioStart cfg => simp [Act.resetsGuard] at ha
  | audioChunk chunk sig =>
      show (handle_audio_chunk s chunk sig).dispatches = s.dispatches ∧
        (handle_audio_chunk s chunk sig).processing_started = some true
      simp [handle_audio_chunk, hg]
  | audioEnd =>
      show (handle_audio_end s).dispatches = s.dispatches ∧
        (handle_audio_end s).processing_started = some true
      simp [handle_audio_end, trigger_processing_once, hg]
  | confirmFire =>
      show (confirm_endpoint_fire s).dispatches = s.dispatches ∧
        (confirm_endpoint_fire s).processing_started = some true
      unfold confirm_endpoint_fire
      by_cases ht : s.endpoint_task ≠ some TaskStatus.pending
      · rw [if_pos ht]
        exact ⟨rfl, hg⟩
      · rw [if_neg ht, if_pos hg]
        exact ⟨rfl, hg⟩
  | processDone => simp [Act.resetsGuard] at ha
  | connectWs c =>
      show (connect s c).dispatches = s.dispatches ∧
        (connect s c).processing_started = some true
      unfold connect
      split
      · exact ⟨rfl, hg⟩
      · exact ⟨rfl, hg⟩
  | disconnectWs c => simp [Act.resetsGuard] at ha

/-- `handle_audio_chunk` never touches the dispatch log or the
trigger-guard entry. -/
lemma handle_audio_chunk_frame (s : MgrState) (chunk : Bytes) (sig : VadSignal) :
    (handle_audio_chunk s chunk sig).dispatches = s.dispatches ∧
      (handle_audio_chunk s chunk sig).processing_started = s.processing_started := by
  unfold handle_audio_chunk
  by_cases hg : s.processing_started = some true
  · rw [if_pos hg]
    exact ⟨rfl, rfl⟩
  · rw [if_neg hg]
    cases hv : s.vad with
    | none => simp [hv]
    | some v =>
        simp only [hv]
        rcases hvp : vad_process_chunk v chunk sig with ⟨v', res⟩
        by_cases hres : res.speech_resumed <;>
          by_cases hend : res.end_detected <;>
            simp [hvp, hres, hend, cancel_endpoint_task, schedule_endpoint_trigger] <;>
              split <;> simp

/-- `confirm_endpoint_fire` either early-returns (marking the task done)
or reduces to the guarded trigger. -/
lemma confirm_fire_dispatch_spec (s : MgrState) :
    (confirm_endpoint_fire s).dispatches = s.dispatches ∨
      ((confirm_endpoint_fire s).dispatches.length = s.dispatches.length + 1 ∧
       (confirm_endpoint_fire s).processing_started = some true) := by
  unfold confirm_endpoint_fire
  split
  · left; rfl
  · split
    · left; rfl
    · split
      · left; rfl
      · split
        · left; rfl
        · exact trigger_dispatch_spec _ _ _

/-- Every single action either leaves the dispatch log unchanged or
appends exactly one dispatch while leaving the guard fired. -/
lemma step_dispatch_spec (s : MgrState) (a : Act) :
    (step s a).dispatches = s.dispatches ∨
      ((step s a).dispatches.length = s.dispatches.length + 1 ∧
       (step s a).processing_started = some true) := by
  cases a with
  | audioStart cfg =>
      left
      show (handle_audio_start s cfg).dispatches = s.dispatches
      unfold handle_audio_start
      cases s.session <;> rfl
  | audioChunk chunk sig =>
      left
      exact (handle_audio_chunk_frame s chunk sig).1
  | audioEnd => exact trigger_dispatch_spec s none none
  | confirmFire => exact confirm_fire_dispatch_spec s
  | processDone =>
      left
      show (process_audio_done s).dispatches = s.dispatches
      unfold process_audio_done
      split <;> rfl
  | connectWs c =>
      left
      show (connect s c).dispatches = s.dispatches
      unfold connect
      split <;> rfl
  | disconnectWs c => left; rfl

/-- Running any number of non-resetting actions from a state whose guard
has fired leaves the dispatch log unchanged. -/
lemma run_guard_true (acts : List Act) (s : MgrState)
    (hg : s.processing_started = some true)
    (h : ∀ a ∈ acts, a.resetsGuard = false) :
    (run s acts).dispatches = s.dispatches := by
  induction acts generalizing s with
  | nil => rfl
  | cons a rest ih =>
      have ha := h a (by simp)
      have hs := step_guard_true s a hg ha
      have := ih (step s a) hs.2 (fun b hb => h b (by simp [hb]))
      simpa [run] using this.trans hs.1

/-- C1 as amended.  While the trigger-guard entry for a turn is live —
that is, along any sequence of actions none of which re-arms or deletes
the guard (`audio.start`, the `_process_audio` cleanup, `disconnect`) —
at most one pipeline dispatch occurs, no matter how many explicit
`audio.end` messages, confirmed VAD endpoints, chunks or duplicate
retries arrive.  (Once the cleanup deletes the guard entry, a later
trigger can dispatch again for the same turn; see the counterexample.) -/
theorem at_most_once_per_guard_window (s : MgrState) (acts : List Act)
    (h : ∀ a ∈ acts, a.resetsGuard = false) :
    (run s acts).dispatches.length ≤ s.dispatches.length + 1 := by
  induction acts generalizing s with
  | nil => simp [run]
  | cons a rest ih =>
      have ha := h a (by simp)
      have hrest : ∀ b ∈ rest, b.resetsGuard = false := fun b hb => h b (by simp [hb])
      rcases step_dispatch_spec s a with heq | ⟨hlen, hguard⟩
      · have := ih (step s a) hrest
        rw [heq] at this
        simpa [run] using this
      · have := run_guard_true rest (step s a) hguard hrest
        have hr : (run s (a :: rest)).dispatches = (step s a).dispatches := by
          simpa [run] using this
        rw [hr, hlen]

/-- Witness for C1 (amended): two consecutive `audio.end` retries after a
chunk produce a single dispatch. -/
theorem at_most_once_per_guard_window_witness :
    (∀ a ∈ ([.audioChunk [1, 2] .nothing, .audioEnd, .audioEnd] : List Act),
       a.resetsGuard = false) ∧
    (run (step init (.audioStart 0))
        [.audioChunk [1, 2] .nothing, .audioEnd, .audioEnd]).dispatches.length
      ≤ (step init (.audioStart 0)).dispatches.length + 1 :=
  ⟨by decide,
   at_most_once_per_guard_window (step init (.audioStart 0))
     [.audioChunk [1, 2] .nothing, .audioEnd, .audioEnd] (by decide)⟩

/-- C1 counterexample.  One turn, one `audio.start`, then: chunk,
`audio.end` (first dispatch), `_process_audio` cleanup (deletes the
guard entry and the buffer; the turn is still current because the
processing failed), a late chunk (recreates the buffer), and a duplicate
`audio.end` — which dispatches a second time.  The session's
`current_turn` is the same turn (id 0) at both dispatches, so the
pipeline is dispatched twice for that turn: the trigger-guard flag is
not the sole arbiter once its entry has been deleted mid-turn. -/
theorem double_dispatch_same_turn :
    (run init [.audioStart 5, .audioChunk [1, 2] .nothing, .audioEnd]).dispatches.length
        = 1 ∧
    ((run init [.audioStart 5, .audioChunk [1, 2] .nothing, .audioEnd]).session.bind
        Session.current_turn).map Turn.turn_id = some 0 ∧
    (run init [.audioStart 5, .audioChunk [1, 2] .nothing, .audioEnd, .processDone,
        .audioChunk [3, 4] .nothing, .audioEnd]).dispatches.length = 2 ∧
    ((run init [.audioStart 5, .audioChunk [1, 2] .nothing, .audioEnd, .processDone,
        .audioChunk [3, 4] .nothing, .audioEnd]).session.bind
        Session.current_turn).map Turn.turn_id = some 0 := by
  decide

lemma run_nil (s : MgrState) : run s [] = s := rfl

lemma run_cons (s : MgrState) (a : Act) (l : List Act) :
    run s (a :: l) = run (step s a) l := rfl

/-- C2 as amended.  (i) When the detector reports speech resumed while an
endpoint is pending and the turn's trigger has not fired, the pending
confirmation task is cancelled, `pending_endpoint` is cleared, the chunk
is still appended to the buffer, and no dispatch occurs.  (ii) Every
chunk in the buffer — in particular every chunk appended after such a
resume — is contained in the audio handed over by a subsequent explicit
`audio.end` trigger, which commits the buffer's full concatenation.
(A later VAD-endpoint trigger instead commits only the prefix up to its
own endpoint plus the post-roll window, which can cut off audio appended
after that endpoint; see the counterexample.) -/
theorem no_loss_on_resume :
    (∀ (s : MgrState) (v : StreamingVADState) (chunk : Bytes),
      s.processing_started ≠ some true → s.vad = some v →
      v.pending_endpoint = true →
      (step s (.audioChunk chunk .start)).endpoint_task = none ∧
      (step s (.audioChunk chunk .start)).vad
        = some { total_samples := v.total_samples + chunk.length / 2,
                 pending_endpoint := false, last_end_sample := none } ∧
      (step s (.audioChunk chunk .start)).buffer
        = some ((s.buffer.getD AudioBuffer.fresh).add_chunk chunk) ∧
      (step s (.audioChunk chunk .start)).dispatches = s.dispatches) ∧
    (∀ (s : MgrState) (b : AudioBuffer) (x : Nat) (xs : Bytes),
      s.processing_started ≠ some true → s.buffer = some b →
      b.get_audio_data = x :: xs →
      (step s .audioEnd).dispatches
        = s.dispatches ++ [{ audio := b.get_audio_data, config := some b.config }] ∧
      ∀ c ∈ b.chunks, c <:+: b.get_audio_data) := by
  constructor
  · intro s v chunk hg hv hp
    simp only [step]
    rw [handle_audio_chunk, if_neg hg]
    simp only [hv]
    simp [vad_process_chunk, hp, cancel_endpoint_task]
  · intro s b x xs hg hb hbd
    constructor
    · simp only [step]
      rw [handle_audio_end, trigger_processing_once, if_neg hg]
      simp [ resolve_audio, resolve_config, hb, hbd]
    · intro c hc
      exact List.infix_of_mem_flatten hc

/-- Witness for C2 (amended) at concrete inputs: a resume cancels the
pending task and keeps the chunk, and a subsequent `audio.end` hands
over both buffered chunks. -/
theorem no_loss_on_resume_witness :
    (({ init with
        processing_started := some false
        vad := some { total_samples := 1, pending_endpoint := true,
                      last_end_sample := some 1 }
        endpoint_task := some .pending
        buffer := some (AudioBuffer.fresh.add_chunk [1, 2]) } : MgrState).processing_started
          ≠ some true ∧
     ((step { init with
        processing_started := some false
        vad := some { total_samples := 1, pending_endpoint := true,
                      last_end_sample := some 1 }
        endpoint_task := some .pending
        buffer := some (AudioBuffer.fresh.add_chunk [1, 2]) } (.audioChunk [3, 4] .start)).endpoint_task
          = none ∧
      (step { init with
        processing_started := some false
        vad := some { total_samples := 1, pending_endpoint := true,
                      last_end_sample := some 1 }
        endpoint_task := some .pending
        buffer := some (AudioBuffer.fresh.add_chunk [1, 2]) } (.audioChunk [3, 4] .start)).vad
          = some { total_samples := 2, pending_endpoint := false, last_end_sample := none } ∧
      (step { init with
        processing_started := some false
        vad := some { total_samples := 1, pending_endpoint := true,
                      last_end_sample := some 1 }
        endpoint_task := some .pending
        buffer := some (AudioBuffer.fresh.add_chunk [1, 2]) } (.audioChunk [3, 4] .start)).buffer
          = some ((AudioBuffer.fresh.add_chunk [1, 2]).add_chunk [3, 4]) ∧
      (step { init with
        processing_started := some false
        vad := some { total_samples := 1, pending_endpoint := true,
                      last_end_sample := some 1 }
        endpoint_task := some .pending
        buffer := some (AudioBuffer.fresh.add_chunk [1, 2]) } (.audioChunk [3, 4] .start)).dispatches
          = [])) ∧
    ((step { init with
        processing_started := some false
        buffer := some ((AudioBuffer.fresh.add_chunk [1, 2]).add_chunk [3, 4]) } .audioEnd).dispatches
          = [{ audio := [1, 2, 3, 4], config := some 0 }] ∧
     ∀ c ∈ ((AudioBuffer.fresh.add_chunk [1, 2]).add_chunk [3, 4]).chunks,
       c <:+: ((AudioBuffer.fresh.add_chunk [1, 2]).add_chunk [3, 4]).get_audio_data) := by
  constructor
  · refine ⟨by decide, ?_⟩
    have h := no_loss_on_resume.1 { init with
        processing_started := some false
        vad := some { total_samples := 1, pending_endpoint := true,
                      last_end_sample := some 1 }
        endpoint_task := some .pending
        buffer := some (AudioBuffer.fresh.add_chunk [1, 2]) }
      { total_samples := 1, pending_endpoint := true, last_end_sample := some 1 }
      [3, 4] (by decide) rfl rfl
    simpa using h
  · have h := no_loss_on_resume.2 { init with
        processing_started := some false
        buffer := some ((AudioBuffer.fresh.add_chunk [1, 2]).add_chunk [3, 4]) }
      ((AudioBuffer.fresh.add_chunk [1, 2]).add_chunk [3, 4]) 1 [2, 3, 4]
      (by decide) rfl (by decide)
    simpa using h

/-- C2 counterexample.  Trace: audio.start; chunk (endpoint detected,
confirmation task scheduled); chunk (speech resumed before the window
elapsed — the task is cancelled, conjunct 1); chunk (second endpoint at
sample 3); an 8000-byte chunk appended after the resume; confirmation
fires.  No trigger came from the cancelled endpoint (conjunct 2: no
dispatch before the fire), and the committing VAD trigger hands over
only 2*(3 + 3200) = 6406 bytes (conjunct 3) — so the 8000-byte chunk
appended after the resume is not contained in the buffer handed to the
trigger that commits (conjunct 4), refuting the claim's universal
no-loss statement. -/
theorem post_roll_truncation :
    (run init [.audioStart 5, .audioChunk [0, 0] .endOfSpeech,
        .audioChunk [0, 0] .start]).endpoint_task = none ∧
    (run init [.audioStart 5, .audioChunk [0, 0] .endOfSpeech, .audioChunk [0, 0] .start,
        .audioChunk [0, 0] .endOfSpeech,
        .audioChunk (List.replicate 8000 7) .nothing]).dispatches = [] ∧
    (run init [.audioStart 5, .audioChunk [0, 0] .endOfSpeech, .audioChunk [0, 0] .start,
        .audioChunk [0, 0] .endOfSpeech, .audioChunk (List.replicate 8000 7) .nothing,
        .confirmFire]).dispatches.map (fun d => d.audio.length) = [6406] ∧
    ∀ d ∈ (run init [.audioStart 5, .audioChunk [0, 0] .endOfSpeech, .audioChunk [0, 0] .start,
        .audioChunk [0, 0] .endOfSpeech, .audioChunk (List.replicate 8000 7) .nothing,
        .confirmFire]).dispatches,
      ¬ (List.replicate 8000 7 : Bytes) <:+: d.audio := by
  generalize hR : List.replicate (8000 : Nat) (7 : Nat) = R
  have hRlen : R.length = 8000 := by
    rw [← hR]
    exact List.length_replicate ..
  have h4 : run init [.audioStart 5, .audioChunk [0, 0] .endOfSpeech,
      .audioChunk [0, 0] .start, .audioChunk [0, 0] .endOfSpeech] =
      ({
        connections := [],
        buffer := some { chunks := [[0, 0], [0, 0], [0, 0]], config := 5, total_bytes := 6 },
        vad := some { total_samples := 3, pending_endpoint := true, last_end_sample := some 3 },
        processing_started := some false,
        endpoint_task := some .pending,
        session := some { status := .listening, turns := [], current_turn := some { turn_id := 0 }, next_turn_id := 1 },
        events := [Ev.state .listening none],
        dispatches := [],
        inflight := 0 } : MgrState) := by decide
  have h5 : step ({
        connections := [],
        buffer := some { chunks := [[0, 0], [0, 0], [0, 0]], config := 5, total_bytes := 6 },
        vad := some { total_samples := 3, pending_endpoint := true, last_end_sample := some 3 },
        processing_started := some false,
        endpoint_task := some .pending,
        session := some { status := .listening, turns := [], current_turn := some { turn_id := 0 }, next_turn_id := 1 },
        events := [Ev.state .listening none],
        dispatches := [],
        inflight := 0 } : MgrState) (.audioChunk R .nothing) =
      ({
        connections := [],
        buffer := some { chunks := [[0, 0], [0, 0], [0, 0], R], config := 5, total_bytes := 8006 },
        vad := some { total_samples := 4003, pending_endpoint := true, last_end_sample := some 3 },
        processing_started := some false,
        endpoint_task := some .pending,
        session := some { status := .listening, turns := [], current_turn := some { turn_id := 0 }, next_turn_id := 1 },
        events := [Ev.state .listening none],
        dispatches := [],
        inflight := 0 } : MgrState) := by
    simp only [step]
    rw [handle_audio_chunk]
    norm_num [vad_process_chunk, AudioBuffer.add_chunk, hRlen]
  have hdata : ({ chunks := [[0, 0], [0, 0], [0, 0], R], config := 5, total_bytes := 8006 } : AudioBuffer).get_audio_data = [0, 0, 0, 0, 0, 0] ++ R := by
    show ([0, 0] : Bytes) ++ ([0, 0] ++ ([0, 0] ++ (R ++ []))) = [0, 0, 0, 0, 0, 0] ++ R
    rw [List.append_nil]
    rfl
  have hget : ({ chunks := [[0, 0], [0, 0], [0, 0], R], config := 5, total_bytes := 8006 } : AudioBuffer).get_audio_data_up_to_samples ((3203 : Nat) : Int)
      = [0, 0, 0, 0, 0, 0] ++ R.take 6400 := by
    unfold AudioBuffer.get_audio_data_up_to_samples
    rw [hdata]
    norm_num [hRlen]
    show List.take (Int.toNat 6406) (([0, 0, 0, 0, 0, 0] : Bytes) ++ R)
      = [0, 0, 0, 0, 0, 0] ++ List.take 6400 R
    rw [List.take_append_eq_append_take]
    rw [show Int.toNat 6406 = 6406 from rfl]
    rw [List.take_of_length_le (show (([0, 0, 0, 0, 0, 0] : Bytes)).length ≤ 6406 by norm_num)]
    norm_num
  have h6 : step ({
        connections := [],
        buffer := some { chunks := [[0, 0], [0, 0], [0, 0], R], config := 5, total_bytes := 8006 },
        vad := some { total_samples := 4003, pending_endpoint := true, last_end_sample := some 3 },
        processing_started := some false,
        endpoint_task := some .pending,
        session := some { status := .listening, turns := [], current_turn := some { turn_id := 0 }, next_turn_id := 1 },
        events := [Ev.state .listening none],
        dispatches := [],
        inflight := 0 } : MgrState) .confirmFire =
      ({
        connections := [],
        buffer := some { chunks := [[0, 0], [0, 0], [0, 0], R], config := 5, total_bytes := 8006 },
        vad := none,
        processing_started := some true,
        endpoint_task := none,
        session := some { status := .listening, turns := [], current_turn := some { turn_id := 0 }, next_turn_id := 1 },
        events := [Ev.state .listening none, Ev.state .processing none],
        dispatches := [{ audio := [0, 0, 0, 0, 0, 0] ++ R.take 6400, config := some 5 }],
        inflight := 1 } : MgrState) := by
    simp only [step]
    rw [confirm_endpoint_fire]
    rw [if_neg (show ¬ (some TaskStatus.pending ≠ some TaskStatus.pending) by simp)]
    rw [if_neg (show ¬ ((some false : Option Bool) = some true) by simp)]
    simp only [Option.getD_some]
    rw [if_neg (show ¬ ((!true) = true) by simp)]
    simp only [Option.map_some']
    rw [show ((3 : Nat) + POST_ROLL_SAMPLES) = 3203 from rfl]
    rw [hget]
    rw [trigger_processing_once]
    rw [if_neg (show ¬ ((some false : Option Bool) = some true) by simp)]
    simp only [ resolve_audio, resolve_config]
    simp only [List.cons_append, List.nil_append]
  have hrun5 : run init [.audioStart 5, .audioChunk [0, 0] .endOfSpeech, .audioChunk [0, 0] .start,
      .audioChunk [0, 0] .endOfSpeech, .audioChunk R .nothing] =
      step (run init [.audioStart 5, .audioChunk [0, 0] .endOfSpeech, .audioChunk [0, 0] .start,
      .audioChunk [0, 0] .endOfSpeech]) (.audioChunk R .nothing) := by
    simp only [run, List.foldl_cons, List.foldl_nil]
  have hrun6 : run init [.audioStart 5, .audioChunk [0, 0] .endOfSpeech, .audioChunk [0, 0] .start,
      .audioChunk [0, 0] .endOfSpeech, .audioChunk R .nothing, .confirmFire] =
      step (run init [.audioStart 5, .audioChunk [0, 0] .endOfSpeech, .audioChunk [0, 0] .start,
      .audioChunk [0, 0] .endOfSpeech, .audioChunk R .nothing]) .confirmFire := by
    simp only [run, List.foldl_cons, List.foldl_nil]
  rw [h4] at hrun5
  rw [h5] at hrun5
  rw [hrun5] at hrun6
  rw [h6] at hrun6
  refine ⟨by decide, ?_, ?_, ?_⟩
  · rw [hrun5]
  · rw [hrun6]
    simp [List.length_take, hRlen]
  · rw [hrun6]
    intro d hd
    simp only [List.mem_singleton] at hd
    subst hd
    intro hinf
    have hle := hinf.length_le
    simp [hRlen, List.length_take] at hle

end VoiceService
